import Mathlib

/-!
Verification of the Witmotion vibration analyzer.

This file embeds the analysis pipeline of the repository
(`vibration_analyzer.py`, `witmotion_device.py`, `main.py`) as Lean
definitions and proves the specified properties about them.

Numeric conventions: the Python floats are modelled as exact rationals
(every IEEE float is a rational number); DFT magnitudes, which are
genuinely irrational, live in `ℝ` via the complex modulus.
-/

/-- Frequency of DFT bin `k` of an `n`-point series sampled at `fs` Hz, as
computed by `np.fft.fftfreq(n, 1/fs)` (vibration_analyzer.py line 37): bins
`k = 0 .. (n-1)/2` (integer division) carry the frequency `k*fs/n`, and every
later bin carries the aliased negative frequency `(k-n)*fs/n`. -/
def fftfreq (n : ℕ) (fs : ℚ) (k : ℕ) : ℚ :=
  (if k ≤ (n - 1) / 2 then (k : ℚ) else (k : ℚ) - (n : ℚ)) * fs / (n : ℚ)

/-- The bin indices surviving the mask `freq >= 0` applied in
vibration_analyzer.py line 43, in their original order. -/
def keptBins (n : ℕ) (fs : ℚ) : List ℕ :=
  (List.range n).filter (fun k => decide (0 ≤ fftfreq n fs k))

/-- The `k`-th discrete Fourier transform coefficient of the series `v`,
`X_k = Σ_{j<n} v_j · exp(-2πi·j·k/n)`, as computed by `scipy.fft.fft` at
vibration_analyzer.py line 33. -/
noncomputable def dftCoeff (v : List ℚ) (k : ℕ) : ℂ :=
  ∑ j ∈ Finset.range v.length,
    (((v.getD j 0 : ℚ) : ℝ) : ℂ) *
      Complex.exp (-(2 * (Real.pi : ℂ) * Complex.I * (j : ℂ) * (k : ℂ)) / (v.length : ℂ))

/-- `compute_fft` (vibration_analyzer.py lines 22-44): the DFT of the raw
series, magnitudes `np.abs` of the coefficients, keeping only the bins whose
`fftfreq` frequency is nonnegative.  `none` models the `ValueError` that
`scipy.fft.fft` raises on a zero-length input (the spec's `InvalidInput`);
on nonempty input the function returns the `(frequency, magnitude)` pairs in
bin order. -/
noncomputable def compute_fft (v : List ℚ) (fs : ℚ) : Option (List (ℚ × ℝ)) :=
  if v.length = 0 then none
  else some ((keptBins v.length fs).map
    (fun k => (fftfreq v.length fs k, Complex.abs (dftCoeff v k))))

lemma filter_le_range (N m : ℕ) :
    (List.range N).filter (fun k => decide (k ≤ m)) = List.range (min N (m + 1)) := by
  induction N with
  | zero => simp
  | succ N ih =>
      rw [List.range_succ, List.filter_append, ih]
      by_cases h : N ≤ m
      · have h1 : min (N + 1) (m + 1) = N + 1 := by omega
        have h2 : min N (m + 1) = N := by omega
        rw [h1, h2, List.range_succ]
        simp [h]
      · have h1 : min (N + 1) (m + 1) = min N (m + 1) := by omega
        rw [h1]
        simp [h]

lemma keptBins_eq (n : ℕ) (fs : ℚ) (hn : 0 < n) (hfs : 0 < fs) :
    keptBins n fs = List.range ((n + 1) / 2) := by
  have hcong : ∀ k ∈ List.range n,
      (decide (0 ≤ fftfreq n fs k)) = (decide (k ≤ (n - 1) / 2)) := by
    intro k hk
    rw [List.mem_range] at hk
    by_cases h : k ≤ (n - 1) / 2
    · have h0 : 0 ≤ fftfreq n fs k := by
        unfold fftfreq
        rw [if_pos h]
        exact div_nonneg (mul_nonneg (Nat.cast_nonneg k) hfs.le) (Nat.cast_nonneg n)
      simp [h0, h]
    · have h0 : ¬ (0 ≤ fftfreq n fs k) := by
        unfold fftfreq
        rw [if_neg h]
        have hk1 : (k : ℚ) - (n : ℚ) < 0 := by
          have : (k : ℚ) < (n : ℚ) := by exact_mod_cast hk
          linarith
        have hn1 : (0 : ℚ) < (n : ℚ) := by exact_mod_cast hn
        push_neg
        exact div_neg_of_neg_of_pos (mul_neg_of_neg_of_pos hk1 hfs) hn1
      simp [h0, h]
  unfold keptBins
  rw [List.filter_congr hcong, filter_le_range]
  congr 1
  omega

lemma compute_fft_eq (v : List ℚ) (fs : ℚ) (hv : v ≠ []) (hfs : 0 < fs) :
    compute_fft v fs = some ((List.range ((v.length + 1) / 2)).map
      (fun (k : ℕ) => ((k : ℚ) * fs / (v.length : ℚ), Complex.abs (dftCoeff v k)))) := by
  have hn : 0 < v.length := List.length_pos.mpr hv
  unfold compute_fft
  rw [if_neg (by omega), keptBins_eq v.length fs hn hfs]
  congr 1
  apply List.map_congr_left
  intro k hk
  rw [List.mem_range] at hk
  have hk2 : k ≤ (v.length - 1) / 2 := by omega
  unfold fftfreq
  rw [if_pos hk2]

/-- C1, amended.  On a nonempty series of length `n` with sampling rate
`fs > 0`, `compute_fft` returns exactly `⌈n/2⌉ = (n+1)/2` pairs, the `k`-th
pair at frequency `k·fs/n` for `k = 0 .. ⌈n/2⌉ - 1`, sorted strictly
ascending by frequency.  (The original claim said `⌊n/2⌋ + 1` pairs with
`k` up to `⌊n/2⌋`; for even `n` the code drops the Nyquist bin, which
`np.fft.fftfreq` labels with a negative frequency, so `n = 100` yields 50
bins, not 51.) -/
theorem compute_fft_bin_layout (v : List ℚ) (fs : ℚ) (hv : v ≠ []) (hfs : 0 < fs) :
    ∃ s : List (ℚ × ℝ),
      compute_fft v fs = some s ∧
      s.length = (v.length + 1) / 2 ∧
      s.map Prod.fst =
        (List.range ((v.length + 1) / 2)).map (fun (k : ℕ) => (k : ℚ) * fs / (v.length : ℚ)) ∧
      List.Pairwise (fun a b : ℚ × ℝ => a.1 < b.1) s := by
  refine ⟨_, compute_fft_eq v fs hv hfs, by simp, ?_, ?_⟩
  · rw [List.map_map]
    rfl
  · rw [List.pairwise_map]
    have hn : 0 < v.length := List.length_pos.mpr hv
    have hn1 : (0 : ℚ) < (v.length : ℚ) := by exact_mod_cast hn
    refine (List.pairwise_lt_range _).imp ?_
    intro a b hab
    have hab1 : (a : ℚ) < (b : ℚ) := by exact_mod_cast hab
    exact div_lt_div_of_pos_right (mul_lt_mul_of_pos_right hab1 hfs) hn1

/-- C1 witness: instantiation at the three-sample series `[1, 2, 3]`
with `fs = 1`. -/
theorem compute_fft_bin_layout_witness :
    ∃ s : List (ℚ × ℝ),
      compute_fft [(1 : ℚ), 2, 3] 1 = some s ∧
      s.length = ([(1 : ℚ), 2, 3].length + 1) / 2 ∧
      s.map Prod.fst = (List.range (([(1 : ℚ), 2, 3].length + 1) / 2)).map
        (fun (k : ℕ) => (k : ℚ) * 1 / (([(1 : ℚ), 2, 3].length : ℕ) : ℚ)) ∧
      List.Pairwise (fun a b : ℚ × ℝ => a.1 < b.1) s :=
  compute_fft_bin_layout [(1 : ℚ), 2, 3] 1 (by decide) (by norm_num)

/-- C1 fails as literally stated: on a 100-sample series the code keeps
50 nonnegative-frequency bins, not `⌊100/2⌋ + 1 = 51`, because numpy
assigns the Nyquist bin of an even-length series the frequency `-fs/2`,
which the `freq >= 0` mask removes. -/
theorem compute_fft_bin_count_cex :
    ¬ ∃ s : List (ℚ × ℝ),
        compute_fft (List.replicate 100 (1 : ℚ)) 1 = some s ∧ s.length = 51 := by
  rintro ⟨s, hs, hlen⟩
  rw [compute_fft_eq _ _ (by simp) (by norm_num)] at hs
  rw [← Option.some.inj hs] at hlen
  simp at hlen

/-- C7.  On a one-sample series `[v]`, `compute_fft` returns a single pair:
frequency `0`, magnitude the absolute value of the sample. -/
theorem compute_fft_singleton (v fs : ℚ) :
    compute_fft [v] fs = some [((0 : ℚ), |(v : ℝ)|)] := by
  have hfreq : fftfreq 1 fs 0 = 0 := by
    unfold fftfreq
    norm_num
  have hkept : keptBins 1 fs = [0] := by
    unfold keptBins
    simp [List.range_succ, hfreq]
  have hcoeff : dftCoeff [v] 0 = (((v : ℝ)) : ℂ) := by
    unfold dftCoeff
    simp
  unfold compute_fft
  rw [show ([v] : List ℚ).length = 1 from rfl]
  rw [if_neg one_ne_zero, hkept]
  simp only [List.map_cons, List.map_nil]
  rw [hfreq, hcoeff, Complex.abs_ofReal]

/-- C3.  `compute_fft` on the empty series fails (returns `none`, the
embedding of the `InvalidInput` error raised on zero-length input) for
every sampling rate: it never returns a spectrum, empty or otherwise. -/
theorem compute_fft_empty (fs : ℚ) : compute_fft ([] : List ℚ) fs = none := by
  unfold compute_fft
  rfl

/-- The magnitude ordering on spectrum entries: compare `(frequency,
magnitude)` pairs by their magnitude component, as `np.argsort(magnitude)`
orders bin indices in main.py line 71. -/
def magLE (a b : ℚ × ℚ) : Prop := a.2 ≤ b.2

instance : DecidableRel magLE := fun a b => inferInstanceAs (Decidable (a.2 ≤ b.2))

instance : IsTotal (ℚ × ℚ) magLE := ⟨fun a b => le_total a.2 b.2⟩

instance : IsTrans (ℚ × ℚ) magLE := ⟨fun _ _ _ h1 h2 => le_trans h1 h2⟩

/-- `dominantPeaks` (main.py lines 71-73, also plot markers at
vibration_analyzer.py lines 90-92): `np.argsort(magnitude)[-count:]` sorts
the bins by ascending magnitude and keeps the last `count` of them, i.e.
the `count` entries of largest magnitude, ascending, largest last.  Python
slicing clamps, so fewer than `count` bins means all bins.  Spectra are
lists of `(frequency, magnitude)` pairs with exact rational entries. -/
def dominantPeaks (spectrum : List (ℚ × ℚ)) (count : ℕ) : List (ℚ × ℚ) :=
  (spectrum.insertionSort magLE).drop ((spectrum.insertionSort magLE).length - count)

/-- C2.  For every spectrum and every feasible count, `dominantPeaks`
returns exactly `count` entries, ordered ascending by magnitude (largest
last), and the spectrum splits as a permutation into the returned entries
plus a rest whose magnitudes are all bounded by every returned magnitude:
magnitude-rank selection, with no local-maximum requirement. -/
theorem dominantPeaks_spec (s : List (ℚ × ℚ)) (count : ℕ) (h : count ≤ s.length) :
    (dominantPeaks s count).length = count ∧
    List.Pairwise magLE (dominantPeaks s count) ∧
    ∃ rest : List (ℚ × ℚ), List.Perm s (rest ++ dominantPeaks s count) ∧
      ∀ y ∈ rest, ∀ x ∈ dominantPeaks s count, y.2 ≤ x.2 := by
  have hperm : List.Perm (s.insertionSort magLE) s := List.perm_insertionSort magLE s
  have hsorted : List.Sorted magLE (s.insertionSort magLE) := List.sorted_insertionSort magLE s
  have hlen : (s.insertionSort magLE).length = s.length := hperm.length_eq
  unfold dominantPeaks
  refine ⟨?_, ?_, ?_⟩
  · rw [List.length_drop, hlen]
    omega
  · exact hsorted.sublist (List.drop_sublist _ _)
  · refine ⟨(s.insertionSort magLE).take ((s.insertionSort magLE).length - count), ?_, ?_⟩
    · rw [List.take_append_drop]
      exact hperm.symm
    · intro y hy x hx
      have hsplit : List.Pairwise magLE
          ((s.insertionSort magLE).take ((s.insertionSort magLE).length - count) ++
            (s.insertionSort magLE).drop ((s.insertionSort magLE).length - count)) := by
        rw [List.take_append_drop]
        exact hsorted
      exact (List.pairwise_append.mp hsplit).2.2 y hy x hx

/-- C2 witness: a 3-bin spectrum with `count = 3`. -/
theorem dominantPeaks_spec_witness :
    (dominantPeaks [((0 : ℚ), (1 : ℚ)), (1, 3), (2, 2)] 3).length = 3 ∧
    List.Pairwise magLE (dominantPeaks [((0 : ℚ), (1 : ℚ)), (1, 3), (2, 2)] 3) ∧
    ∃ rest : List (ℚ × ℚ),
      List.Perm [((0 : ℚ), (1 : ℚ)), (1, 3), (2, 2)]
        (rest ++ dominantPeaks [((0 : ℚ), (1 : ℚ)), (1, 3), (2, 2)] 3) ∧
      ∀ y ∈ rest, ∀ x ∈ dominantPeaks [((0 : ℚ), (1 : ℚ)), (1, 3), (2, 2)] 3, y.2 ≤ x.2 :=
  dominantPeaks_spec [((0 : ℚ), (1 : ℚ)), (1, 3), (2, 2)] 3 (by decide)

/-- C8.  When `count` exceeds the number of bins, `dominantPeaks` returns
all bins (a permutation of the whole spectrum, same length) rather than
failing. -/
theorem dominantPeaks_count_exceeds (s : List (ℚ × ℚ)) (count : ℕ) (h : s.length < count) :
    List.Perm (dominantPeaks s count) s ∧ (dominantPeaks s count).length = s.length := by
  have hperm : List.Perm (s.insertionSort magLE) s := List.perm_insertionSort magLE s
  have hlen : (s.insertionSort magLE).length = s.length := hperm.length_eq
  unfold dominantPeaks
  have hz : (s.insertionSort magLE).length - count = 0 := by omega
  rw [hz, List.drop_zero]
  exact ⟨hperm, hlen⟩

/-- C8 witness: a 5-bin spectrum with `count = 10` returns all 5 bins. -/
theorem dominantPeaks_count_exceeds_witness :
    List.Perm (dominantPeaks [((0 : ℚ), (5 : ℚ)), (1, 4), (2, 3), (3, 2), (4, 1)] 10)
      [((0 : ℚ), (5 : ℚ)), (1, 4), (2, 3), (3, 2), (4, 1)] ∧
    (dominantPeaks [((0 : ℚ), (5 : ℚ)), (1, 4), (2, 3), (3, 2), (4, 1)] 10).length =
      [((0 : ℚ), (5 : ℚ)), (1, 4), (2, 3), (3, 2), (4, 1)].length :=
  dominantPeaks_count_exceeds [((0 : ℚ), (5 : ℚ)), (1, 4), (2, 3), (3, 2), (4, 1)] 10 (by decide)

/-- A three-component sample, `(x, y, z)`, as produced by
`pywitmotion.get_acceleration` / `get_gyro`. -/
abbrev Vec3 := ℚ × ℚ × ℚ

/-- Alignment of the two recordings (main.py lines 39-42): both arrays are
sliced to `[:min_length]`, the common length, taken from index 0. -/
def alignRecordings (accel gyro : List Vec3) : List Vec3 × List Vec3 :=
  let m := min accel.length gyro.length
  (accel.take m, gyro.take m)

/-- C4.  Alignment truncates both recordings to `min(len(accel), len(gyro))`
samples taken from index 0: each output concatenated with the corresponding
dropped tail gives back the original (so the outputs are initial segments —
no resampling, interpolation or timestamp matching), and a 100-sample accel
recording aligned with an 80-sample gyro recording yields two 80-sample
recordings. -/
theorem alignRecordings_spec (accel gyro : List Vec3) :
    (alignRecordings accel gyro).1.length = min accel.length gyro.length ∧
    (alignRecordings accel gyro).2.length = min accel.length gyro.length ∧
    (alignRecordings accel gyro).1 ++ accel.drop (min accel.length gyro.length) = accel ∧
    (alignRecordings accel gyro).2 ++ gyro.drop (min accel.length gyro.length) = gyro ∧
    (accel.length = 100 → gyro.length = 80 →
      (alignRecordings accel gyro).1.length = 80 ∧
        (alignRecordings accel gyro).2.length = 80) := by
  unfold alignRecordings
  refine ⟨?_, ?_, List.take_append_drop _ _, List.take_append_drop _ _, ?_⟩
  · rw [List.length_take]
    omega
  · rw [List.length_take]
    omega
  · intro h100 h80
    constructor
    · rw [List.length_take]
      omega
    · rw [List.length_take]
      omega

/-- C4 witness: alignment at 100 accel samples and 80 gyro samples. -/
theorem alignRecordings_spec_witness :
    (alignRecordings (List.replicate 100 ((0 : ℚ), (0 : ℚ), (0 : ℚ)))
        (List.replicate 80 ((0 : ℚ), (0 : ℚ), (0 : ℚ)))).1.length = 80 ∧
    (alignRecordings (List.replicate 100 ((0 : ℚ), (0 : ℚ), (0 : ℚ)))
        (List.replicate 80 ((0 : ℚ), (0 : ℚ), (0 : ℚ)))).2.length = 80 :=
  (alignRecordings_spec (List.replicate 100 ((0 : ℚ), (0 : ℚ), (0 : ℚ)))
      (List.replicate 80 ((0 : ℚ), (0 : ℚ), (0 : ℚ)))).2.2.2.2
    (by simp) (by simp)

/-- One iteration of the collection loop in witmotion_device.py lines 71-97,
as seen from the serial link: either a frame was read and both decoders ran
(`accel`/`gyro` are `none` when `pywitmotion` cannot decode the respective
packet out of the frame), or reading raised an exception. -/
inductive FrameEvent where
  | frame (t : ℚ) (accel gyro : Option Vec3)
  | readError

/-- The `while` loop of `collect_data` (witmotion_device.py lines 71-97):
frames whose decode yields `none` for either sensor are skipped (line 87)
and the loop continues; an exception while reading prints a diagnostic and
leaves the loop (`break`, line 97), keeping whatever was accumulated. -/
def collectLoop :
    List FrameEvent → List ℚ × List Vec3 × List Vec3 → List ℚ × List Vec3 × List Vec3
  | [], acc => acc
  | FrameEvent.frame t a g :: rest, (ts, accs, gys) =>
      match a, g with
      | some av, some gv => collectLoop rest (ts ++ [t], accs ++ [av], gys ++ [gv])
      | _, _ => collectLoop rest (ts, accs, gys)
  | FrameEvent.readError :: _, acc => acc

/-- `collect_data` (witmotion_device.py lines 47-100): raises
`RuntimeError("Device not connected")` before reading anything when
`self.connected` is false (lines 58-59), otherwise runs the collection loop
over the frame events of the duration window and returns the accumulated
timestamps, acceleration samples and gyroscope samples. -/
def collect_data (connected : Bool) (events : List FrameEvent) :
    Except String (List ℚ × List Vec3 × List Vec3) :=
  if connected then Except.ok (collectLoop events ([], [], []))
  else Except.error "Device not connected"

lemma collectLoop_skip (pre post : List FrameEvent) (t : ℚ) (a g : Option Vec3)
    (hmal : a = none ∨ g = none) (acc : List ℚ × List Vec3 × List Vec3) :
    collectLoop (pre ++ FrameEvent.frame t a g :: post) acc = collectLoop (pre ++ post) acc := by
  induction pre generalizing acc with
  | nil =>
      rcases hmal with h | h
      · subst h
        cases g <;> rfl
      · subst h
        cases a <;> rfl
  | cons e pre ih =>
      obtain ⟨ts, accs, gys⟩ := acc
      cases e with
      | frame t2 a2 g2 =>
          cases a2 <;> cases g2 <;>
            simp only [List.cons_append, collectLoop] <;> exact ih _
      | readError => rfl

/-- C5.  During collection, a malformed frame (one that fails to decode to
both an acceleration and a gyroscope sample) is dropped and collection
continues over the rest of the window exactly as if the frame had not
arrived; the failure is never escalated: the call still returns `ok` with
whatever samples were accumulated. -/
theorem collect_data_drops_malformed (pre post : List FrameEvent) (t : ℚ)
    (a g : Option Vec3) (hmal : a = none ∨ g = none) :
    collect_data true (pre ++ FrameEvent.frame t a g :: post) = collect_data true (pre ++ post) ∧
    ∃ r, collect_data true (pre ++ FrameEvent.frame t a g :: post) = Except.ok r := by
  unfold collect_data
  simp only [if_true]
  exact ⟨by rw [collectLoop_skip pre post t a g hmal], _, rfl⟩

/-- C5 witness: a malformed frame between two good frames is dropped and
both good frames survive. -/
theorem collect_data_drops_malformed_witness :
    collect_data true
        [FrameEvent.frame 0 (some (1, 2, 3)) (some (4, 5, 6)),
         FrameEvent.frame 1 none (some (7, 8, 9)),
         FrameEvent.frame 2 (some (1, 1, 1)) (some (2, 2, 2))] =
      collect_data true
        [FrameEvent.frame 0 (some (1, 2, 3)) (some (4, 5, 6)),
         FrameEvent.frame 2 (some (1, 1, 1)) (some (2, 2, 2))] ∧
    ∃ r, collect_data true
        [FrameEvent.frame 0 (some (1, 2, 3)) (some (4, 5, 6)),
         FrameEvent.frame 1 none (some (7, 8, 9)),
         FrameEvent.frame 2 (some (1, 1, 1)) (some (2, 2, 2))] = Except.ok r :=
  collect_data_drops_malformed
    [FrameEvent.frame 0 (some (1, 2, 3)) (some (4, 5, 6))]
    [FrameEvent.frame 2 (some (1, 1, 1)) (some (2, 2, 2))]
    1 none (some (7, 8, 9)) (Or.inl rfl)

/-- C10.  Calling `collect_data` while the device is not connected fails
with the `RuntimeError("Device not connected")` of lines 58-59 before any
frame is processed — whatever the link would have delivered, no samples are
returned. -/
theorem collect_data_not_connected (events : List FrameEvent) :
    collect_data false events = Except.error "Device not connected" := rfl

/-- Per-axis spectra: the dictionary comprehensions of
vibration_analyzer.py lines 170-171, `{axis: compute_fft(data) for ...}`;
`none` propagates the exception an empty axis raises. -/
noncomputable def analyzeAxes (data : List (String × List ℚ)) (fs : ℚ) :
    Option (List (String × List (ℚ × ℝ))) :=
  match data with
  | [] => some []
  | p :: rest => do
      let sp ← compute_fft p.2 fs
      let tail ← analyzeAxes rest fs
      pure ((p.1, sp) :: tail)

/-- `analyze_vibration` (vibration_analyzer.py lines 146-173): computes the
per-axis spectra of both sensors keyed by axis label and returns them; the
Boolean in the result records whether `plot_all_data` was invoked (lines
166-167), i.e. whether the plotting side effect happened.  The `timestamps`
argument is only ever forwarded to plotting and never reaches
`compute_fft`. -/
noncomputable def analyze_vibration (timestamps : List ℚ)
    (accelData gyroData : List (String × List ℚ)) (fs : ℚ) (plot : Bool) :
    Option (Bool × List (String × List (ℚ × ℝ)) × List (String × List (ℚ × ℝ))) := do
  let accelR ← analyzeAxes accelData fs
  let gyroR ← analyzeAxes gyroData fs
  pure (plot, accelR, gyroR)

lemma compute_fft_ne_nil (v : List ℚ) (fs : ℚ) (hv : v ≠ []) :
    ∃ s, compute_fft v fs = some s := by
  unfold compute_fft
  rw [if_neg (by simpa using hv)]
  exact ⟨_, rfl⟩

/-- C6.  With plotting disabled, `analyze_vibration` returns two mappings
keyed exactly by the axis labels X, Y, Z, each axis mapped to the
`compute_fft` spectrum of that axis's scalar series at the configured
sampling rate; the plot flag in the result is `false` (no plotting side
effect), and the timestamps have no influence on the result. -/
theorem analyze_vibration_noplot (ts ts2 : List ℚ) (ax ay az gx gy gz : List ℚ) (fs : ℚ)
    (h1 : ax ≠ []) (h2 : ay ≠ []) (h3 : az ≠ []) (h4 : gx ≠ []) (h5 : gy ≠ []) (h6 : gz ≠ []) :
    ∃ sx sy sz ux uy uz,
      compute_fft ax fs = some sx ∧ compute_fft ay fs = some sy ∧
      compute_fft az fs = some sz ∧ compute_fft gx fs = some ux ∧
      compute_fft gy fs = some uy ∧ compute_fft gz fs = some uz ∧
      analyze_vibration ts [("X", ax), ("Y", ay), ("Z", az)]
          [("X", gx), ("Y", gy), ("Z", gz)] fs false =
        some (false, [("X", sx), ("Y", sy), ("Z", sz)], [("X", ux), ("Y", uy), ("Z", uz)]) ∧
      analyze_vibration ts2 [("X", ax), ("Y", ay), ("Z", az)]
          [("X", gx), ("Y", gy), ("Z", gz)] fs false =
        analyze_vibration ts [("X", ax), ("Y", ay), ("Z", az)]
          [("X", gx), ("Y", gy), ("Z", gz)] fs false := by
  obtain ⟨sx, hsx⟩ := compute_fft_ne_nil ax fs h1
  obtain ⟨sy, hsy⟩ := compute_fft_ne_nil ay fs h2
  obtain ⟨sz, hsz⟩ := compute_fft_ne_nil az fs h3
  obtain ⟨ux, hux⟩ := compute_fft_ne_nil gx fs h4
  obtain ⟨uy, huy⟩ := compute_fft_ne_nil gy fs h5
  obtain ⟨uz, huz⟩ := compute_fft_ne_nil gz fs h6
  refine ⟨sx, sy, sz, ux, uy, uz, hsx, hsy, hsz, hux, huy, huz, ?_, rfl⟩
  simp [analyze_vibration, analyzeAxes, hsx, hsy, hsz, hux, huy, huz]

/-- C6 witness: one-sample axes, two different timestamp arrays. -/
theorem analyze_vibration_noplot_witness :
    ∃ sx sy sz ux uy uz,
      compute_fft [(1 : ℚ)] 1 = some sx ∧ compute_fft [(2 : ℚ)] 1 = some sy ∧
      compute_fft [(3 : ℚ)] 1 = some sz ∧ compute_fft [(4 : ℚ)] 1 = some ux ∧
      compute_fft [(5 : ℚ)] 1 = some uy ∧ compute_fft [(6 : ℚ)] 1 = some uz ∧
      analyze_vibration [] [("X", [(1 : ℚ)]), ("Y", [(2 : ℚ)]), ("Z", [(3 : ℚ)])]
          [("X", [(4 : ℚ)]), ("Y", [(5 : ℚ)]), ("Z", [(6 : ℚ)])] 1 false =
        some (false, [("X", sx), ("Y", sy), ("Z", sz)], [("X", ux), ("Y", uy), ("Z", uz)]) ∧
      analyze_vibration [(0 : ℚ), 7] [("X", [(1 : ℚ)]), ("Y", [(2 : ℚ)]), ("Z", [(3 : ℚ)])]
          [("X", [(4 : ℚ)]), ("Y", [(5 : ℚ)]), ("Z", [(6 : ℚ)])] 1 false =
        analyze_vibration [] [("X", [(1 : ℚ)]), ("Y", [(2 : ℚ)]), ("Z", [(3 : ℚ)])]
          [("X", [(4 : ℚ)]), ("Y", [(5 : ℚ)]), ("Z", [(6 : ℚ)])] 1 false :=
  analyze_vibration_noplot [] [(0 : ℚ), 7] [(1 : ℚ)] [(2 : ℚ)] [(3 : ℚ)]
    [(4 : ℚ)] [(5 : ℚ)] [(6 : ℚ)] 1
    (by decide) (by decide) (by decide) (by decide) (by decide) (by decide)

/-- The per-axis dictionaries built in main.py lines 47-57: column 0 of a
recording is the X axis, column 1 the Y axis, column 2 the Z axis. -/
def axisColumns (v : List Vec3) : List (String × List ℚ) :=
  [("X", v.map (fun p => p.1)), ("Y", v.map (fun p => p.2.1)), ("Z", v.map (fun p => p.2.2))]

/-- Outcomes of the orchestration in `main` after collection: the early
return `"No data collected. Exiting..."` of main.py lines 30-32 (the spec's
`InsufficientData`), or a failure inside analysis caught at line 83. -/
inductive AnalysisError where
  | insufficientData
  | analysisFailure

/-- The analysis part of `main` (main.py lines 30-64): bail out when either
collected recording is empty, otherwise align both recordings and the
timestamps to the common length, split into axis columns and run
`analyze_vibration` (with plotting enabled, as `main` does). -/
noncomputable def runAnalysis (timestamps : List ℚ) (accel gyro : List Vec3) (fs : ℚ) :
    Except AnalysisError
      (List (String × List (ℚ × ℝ)) × List (String × List (ℚ × ℝ))) :=
  if accel = [] ∨ gyro = [] then Except.error AnalysisError.insufficientData
  else
    match analyze_vibration (timestamps.take (min accel.length gyro.length))
        (axisColumns (alignRecordings accel gyro).1)
        (axisColumns (alignRecordings accel gyro).2) fs true with
    | some (_, ar, gr) => Except.ok (ar, gr)
    | none => Except.error AnalysisError.analysisFailure

/-- C9.  When either input recording is empty — equivalently, when the
common truncation length is zero, as the second conjunct records — the run
fails with `InsufficientData` and spectrum analysis is skipped: the result
is the error, never a pair of spectra. -/
theorem runAnalysis_insufficient (timestamps : List ℚ) (accel gyro : List Vec3) (fs : ℚ)
    (h : accel = [] ∨ gyro = []) :
    runAnalysis timestamps accel gyro fs = Except.error AnalysisError.insufficientData ∧
    min accel.length gyro.length = 0 := by
  constructor
  · unfold runAnalysis
    rw [if_pos h]
  · rcases h with h | h <;> subst h <;> simp

/-- C9 witness: an empty acceleration recording against a one-sample
gyroscope recording. -/
theorem runAnalysis_insufficient_witness :
    runAnalysis [] [] [((1 : ℚ), (2 : ℚ), (3 : ℚ))] 1 =
      Except.error AnalysisError.insufficientData ∧
    min ([] : List Vec3).length [((1 : ℚ), (2 : ℚ), (3 : ℚ))].length = 0 :=
  runAnalysis_insufficient [] [] [((1 : ℚ), (2 : ℚ), (3 : ℚ))] 1 (Or.inl rfl)
